import Mathlib

/-!
Shallow embedding of the fellowship server (room synchronization engine and
stream session controller) together with theorems settling the frozen claims
about its behaviour.  All definitions are translated from the server source;
times are modelled as exact rationals (milliseconds for wall-clock instants,
seconds for playback positions), JS falsy string/argument checks as equality
with the empty string, and the Redis/Mongo/filesystem effects as explicit
state values and effect lists.
-/

/-! ## Room synchronization engine -/

/-- Per-room shared playback state, as stored under the room key
(`playing`, `currentTime`, `showLive`, `anchorAt`, `refreshAt`, `hostCount`). -/
structure RoomState where
  playing : Bool
  currentTime : ℚ
  showLive : Bool
  anchorAt : ℚ
  refreshAt : ℚ
  hostCount : Int
deriving DecidableEq, Repr

/-- One entry of a room's user roster (`users[userId] = {userId, username, role}`). -/
structure RosterEntry where
  userId : String
  username : String
  role : String
deriving DecidableEq, Repr

/-- Websocket payloads the server sends (the JSON envelopes with a `type` field). -/
inductive Payload where
  | sync (state : RoomState)
  | play (currentTime : ℚ)
  | pause (currentTime : ℚ)
  | toggleLive (showVal : Bool)
  | refreshLive (atMs : ℚ)
  | roomUsers (users : List RosterEntry)
deriving DecidableEq, Repr

/-- `getLiveCurrentTime(room)`: elapsed-corrected playback position.
When paused the stored `currentTime` is returned; when playing, the
wall-clock milliseconds since `anchorAt` are added as seconds. -/
def getLiveCurrentTime (room : RoomState) (nowMs : ℚ) : ℚ :=
  if room.playing = false then room.currentTime
  else room.currentTime + (nowMs - room.anchorAt) / 1000

/-- Inbound client messages accepted by the room websocket handler. -/
inductive ClientMsg where
  | syncRequest
  | keepalive
  | play (currentTime : ℚ)
  | pause (currentTime : ℚ)
  | toggleLive (showVal : Bool)
  | refreshLive
deriving DecidableEq, Repr

/-- The control messages: every inbound type except `sync-request`/`keepalive`. -/
def isControlMsg : ClientMsg → Bool
  | .play _ => true
  | .pause _ => true
  | .toggleLive _ => true
  | .refreshLive => true
  | _ => false

/-- Result of one run of the per-message websocket handler: the state written
back to the store (if `setRoomState` was called), the payloads published to the
whole room, and the payloads sent back to the sender alone. -/
structure HandlerResult where
  stored : Option RoomState
  broadcasts : List Payload
  replies : List Payload
deriving DecidableEq, Repr

/-- The `ws.on('message')` handler of the room websocket: `sync-request` and
`keepalive` are served for any role; the remaining (control) types are guarded
by `if (ws.role !== 'host') return;` and otherwise mutate the read state,
publish, and write the state back. -/
def handleMessage (role : String) (state : RoomState) (nowMs : ℚ) :
    ClientMsg → HandlerResult
  | .syncRequest =>
      ⟨none, [], [Payload.sync { state with currentTime := getLiveCurrentTime state nowMs }]⟩
  | .keepalive => ⟨none, [], []⟩
  | .play t =>
      if role = "host" then
        let s := { state with playing := true, currentTime := t, anchorAt := nowMs }
        ⟨some s, [Payload.play s.currentTime], []⟩
      else ⟨none, [], []⟩
  | .pause t =>
      if role = "host" then
        let s := { state with playing := false, currentTime := t, anchorAt := nowMs }
        ⟨some s, [Payload.pause s.currentTime], []⟩
      else ⟨none, [], []⟩
  | .toggleLive b =>
      if role = "host" then
        let s := { state with showLive := b }
        ⟨some s, [Payload.toggleLive s.showLive], []⟩
      else ⟨none, [], []⟩
  | .refreshLive =>
      if role = "host" then
        let s := { state with refreshAt := nowMs }
        ⟨some s, [Payload.refreshLive s.refreshAt], []⟩
      else ⟨none, [], []⟩

/-- Result of one run of the websocket `close` handler: roster written back
(`none` when the roster became empty and was deleted), the room state written
back via `setRoomState` (`none` when no write happened), the payloads
broadcast to the room, and whether the room-state key was deleted because no
connection is bound to the room any more. -/
structure CloseResult where
  storedUsers : Option (List (String × RosterEntry))
  storedState : Option RoomState
  broadcasts : List Payload
  roomStateDeleted : Bool
deriving DecidableEq, Repr

/-- The `ws.on('close')` handler: remove the user from the roster and broadcast
it; if the connection was a host, decrement the local copy of `hostCount` and,
only when it reaches `<= 0`, force `showLive`/`playing` off, broadcast
`toggle-live:false` and write the state back; finally delete the room state if
no local connection still uses the room. -/
def handleClose (uid role : String) (state : RoomState)
    (users : List (String × RosterEntry)) (stillUsed : Bool) : CloseResult :=
  let users2 := users.filter (fun p => p.1 ≠ uid)
  let storedUsers : Option (List (String × RosterEntry)) :=
    if users2.isEmpty then none else some users2
  let bcUsers := Payload.roomUsers (users2.map Prod.snd)
  if role = "host" then
    let s1 : RoomState := { state with hostCount := state.hostCount - 1 }
    if s1.hostCount ≤ 0 then
      let s2 := { s1 with showLive := false, playing := false }
      ⟨storedUsers, some s2, [bcUsers, Payload.toggleLive false], !stillUsed⟩
    else
      ⟨storedUsers, none, [bcUsers], !stillUsed⟩
  else ⟨storedUsers, none, [bcUsers], !stillUsed⟩

/-! ## Transcode cache -/

/-- Cache directory on disk (`path.join(UPLOAD_ROOT, CACHE_PATH)`). -/
def CACHE_DIR : String := "/data/uploads/cached"

/-- One catalog row of the `transcoded_videos` collection. -/
structure CacheEntry where
  fingerprint : String
  path : String
  originalName : String
deriving DecidableEq, Repr

deriving instance DecidableEq for Except

/-- Outcome of one `getOrCreateCachedFile` call: the returned path or the
thrown error message, the catalog and filesystem afterwards, the file moves
performed (`fs.renameSync`) and the number of catalog upserts. -/
structure CacheResult where
  result : Except String String
  catalog : List CacheEntry
  fsFiles : List String
  renames : List (String × String)
  catalogWrites : Nat
deriving DecidableEq, Repr

/-- `findOne({ fingerprint })` on the catalog. -/
def findCache (catalog : List CacheEntry) (fp : String) : Option CacheEntry :=
  catalog.find? (fun r => r.fingerprint == fp)

/-- `updateOne({fingerprint}, {$set: ...}, {upsert: true})` on the catalog. -/
def upsertCatalog (catalog : List CacheEntry) (e : CacheEntry) : List CacheEntry :=
  if catalog.any (fun r => r.fingerprint == e.fingerprint) then
    catalog.map (fun r => if r.fingerprint == e.fingerprint then e else r)
  else catalog ++ [e]

/-- The miss branch of `getOrCreateCachedFile`: move the uploaded file to the
cache path (`fs.renameSync` throws if the source is gone) and upsert the
catalog row. -/
def createCachedFile (catalog : List CacheEntry) (fsFiles : List String)
    (fingerprint uploadedPath originalName cachedPath : String) : CacheResult :=
  if fsFiles.contains uploadedPath then
    ⟨.ok cachedPath,
     upsertCatalog catalog ⟨fingerprint, cachedPath, originalName⟩,
     cachedPath :: fsFiles.erase uploadedPath,
     [(uploadedPath, cachedPath)], 1⟩
  else ⟨.error "ENOENT_RENAME", catalog, fsFiles, [], 0⟩

/-- `getOrCreateCachedFile(fingerprint, uploadedPath, originalName)`: validate
the inputs, return the recorded path when the catalog row exists and its file
is still on disk, and otherwise move the uploaded file into the cache and
upsert the catalog. Absent/empty JS arguments are modelled as `""`. -/
def getOrCreateCachedFile (catalog : List CacheEntry) (fsFiles : List String)
    (fingerprint uploadedPath originalName : String) : CacheResult :=
  if fingerprint = "" then ⟨.error "MISSING_FINGERPRINT", catalog, fsFiles, [], 0⟩
  else if uploadedPath = "" then ⟨.error "MISSING_UPLOADED_PATH", catalog, fsFiles, [], 0⟩
  else
    let cachedPath := CACHE_DIR ++ "/" ++ fingerprint ++ ".mp4"
    match findCache catalog fingerprint with
    | some r =>
        if fsFiles.contains r.path then ⟨.ok r.path, catalog, fsFiles, [], 0⟩
        else createCachedFile catalog fsFiles fingerprint uploadedPath originalName cachedPath
    | none => createCachedFile catalog fsFiles fingerprint uploadedPath originalName cachedPath

/-! ## Stream session controller -/

/-- Immutable audit row of the `stream_logs` collection (`{action, by, result,
reason}`; fields the code omits are `none`). -/
structure AuditRec where
  action : String
  byWho : Option String
  result : Option String
  reason : Option String
deriving DecidableEq, Repr

/-- A file uploaded through multer (`{originalname, path}`). -/
structure UploadedFile where
  originalname : String
  path : String
deriving DecidableEq, Repr

/-- A cache-hit reference the client sends instead of re-uploading
(`JSON.parse` of one `existing` body entry). -/
structure ExistingRef where
  filePath : String
  index : Int
deriving DecidableEq, Repr

/-- The parsed body of a `POST /api/stream/start` request. An absent `mode`
is modelled as `""`. -/
structure StartRequest where
  mode : String
  files : List UploadedFile
  fingerprints : List String
  indexs : List Int
  existing : List ExistingRef
  clientTranscoded : Bool
deriving DecidableEq, Repr

/-- `req.body.mode || 'playlist'`. -/
def effectiveMode (req : StartRequest) : String :=
  if req.mode = "" then "playlist" else req.mode

/-- `path.basename` for the forward-slash paths the server builds. -/
def basename (p : String) : String :=
  String.mk (p.toList.foldl (fun acc c => if c = '/' then [] else acc ++ [c]) [])

/-- The fresh session directory name (`session-${Date.now()}`). -/
def sessionDirName (nowMs : Nat) : String :=
  "/data/uploads/session-" ++ toString nowMs

/-- A single-quote character, written via its code point. -/
def squote : String := String.mk [Char.ofNat 39]

/-- `p.replace(/'/g, "'\\''")`: each single quote becomes quote backslash
quote quote. -/
def escapeSingleQuotes (p : String) : String :=
  String.mk (p.toList.foldr (fun c acc =>
    (if c = Char.ofNat 39 then [Char.ofNat 39, Char.ofNat 92, Char.ofNat 39, Char.ofNat 39]
     else [c]) ++ acc) [])

/-- One line of the concat manifest: `file '<escaped path>'`. -/
def playlistLine (p : String) : String :=
  "file " ++ squote ++ escapeSingleQuotes p ++ squote

/-- The failure modes of the start handler's session build. -/
inductive StartErr where
  | noFiles
  | mismatch
  | existingNotFound
  | missingFingerprint
  | uploadPathMissing
  | cacheError (msg : String)
deriving DecidableEq, Repr

/-- Result of building the session: the `(index, sessionPath)` pairs in the
order the handler pushed them (existing references first, then uploads), and
the catalog/filesystem/effects after hard-linking everything. -/
structure StartBuild where
  pairs : List (Int × String)
  catalog : List CacheEntry
  fsFiles : List String
  renames : List (String × String)
  catalogWrites : Nat
deriving DecidableEq, Repr

/-- The `existing` loop: check each referenced file exists, link it into the
session directory, and record its `(index, sessionPath)` pair. -/
def procExisting (sessionDir : String) :
    List String → List ExistingRef → Except StartErr (List String × List (Int × String))
  | fsFiles, [] => .ok (fsFiles, [])
  | fsFiles, e :: rest =>
      if fsFiles.contains e.filePath then
        let sessionPath := sessionDir ++ "/" ++ basename e.filePath
        match procExisting sessionDir (sessionPath :: fsFiles) rest with
        | .error err => .error err
        | .ok (fs2, ps) => .ok (fs2, (e.index, sessionPath) :: ps)
      else .error .existingNotFound

/-- The uploaded-files loop: require a fingerprint and a tmp path for each
file, run `getOrCreateCachedFile`, link the cached file into the session
directory, and record its `(index, sessionPath)` pair. -/
def procUploads (sessionDir : String) :
    List CacheEntry → List String → List UploadedFile → List String → List Int →
    Except StartErr StartBuild
  | cat, fsF, [], _, _ => .ok ⟨[], cat, fsF, [], 0⟩
  | cat, fsF, f :: frest, fp :: fprest, ix :: ixrest =>
      if fp = "" then .error .missingFingerprint
      else if f.path = "" then .error .uploadPathMissing
      else
        let r := getOrCreateCachedFile cat fsF fp f.path f.originalname
        match r.result with
        | .error m => .error (.cacheError m)
        | .ok cachedPath =>
            let sessionPath := sessionDir ++ "/" ++ basename cachedPath
            match procUploads sessionDir r.catalog (sessionPath :: r.fsFiles) frest fprest ixrest with
            | .error err => .error err
            | .ok out =>
                .ok ⟨(ix, sessionPath) :: out.pairs, out.catalog, out.fsFiles,
                     r.renames ++ out.renames, r.catalogWrites + out.catalogWrites⟩
  | _, _, _ :: _, _, _ => .error .mismatch

/-- Validation plus both processing loops of the start handler, producing the
request-ordered `(index, sessionPath)` pairs. -/
def startPairs (catalog : List CacheEntry) (fsFiles : List String)
    (sessionDir : String) (req : StartRequest) : Except StartErr StartBuild :=
  if req.files = [] ∧ req.existing = [] then .error .noFiles
  else if req.files ≠ [] ∧
      (req.fingerprints.length ≠ req.files.length ∨ req.indexs.length ≠ req.files.length) then
    .error .mismatch
  else
    match procExisting sessionDir fsFiles req.existing with
    | .error e => .error e
    | .ok (fs1, exPairs) =>
        match procUploads sessionDir catalog fs1 req.files req.fingerprints req.indexs with
        | .error e => .error e
        | .ok out =>
            .ok ⟨exPairs ++ out.pairs, out.catalog, out.fsFiles, out.renames, out.catalogWrites⟩

/-- Insert one pair into a list sorted by index (the comparator
`(a, b) => a.index - b.index`). -/
def insIdx (x : Int × String) : List (Int × String) → List (Int × String)
  | [] => [x]
  | y :: ys => if x.1 ≤ y.1 then x :: y :: ys else y :: insIdx x ys

/-- `orderedFiles.sort((a, b) => a.index - b.index)`: a stable sort of the
pairs by ascending index. -/
def sortIns : List (Int × String) → List (Int × String)
  | [] => []
  | x :: xs => insIdx x (sortIns xs)

/-- Everything one `POST /api/stream/start` request produces: the HTTP
response, the session directory created (if any), the cache catalog and the
file moves/upserts performed, whether ffmpeg was spawned, the ordered session
file list, the playlist manifest lines (in playlist mode) and the audit rows
appended. -/
structure StartOutcome where
  status : Nat
  body : String
  sessionDirCreated : Option String
  catalog : List CacheEntry
  renames : List (String × String)
  catalogWrites : Nat
  spawned : Bool
  sessionFiles : List String
  playlistLines : Option (List String)
  audit : List AuditRec
deriving DecidableEq, Repr

/-- Mapping of a session-build failure onto the handler's HTTP response (the
`cacheError` case is the thrown error reaching the outer `catch`). -/
def startErrOutcome (catalog : List CacheEntry) (sessionDir : String) :
    StartErr → StartOutcome
  | .noFiles => ⟨400, "NO_FILES", none, catalog, [], 0, false, [], none, []⟩
  | .mismatch => ⟨400, "FINGERPRINT_OR_INDEXS_MISMATCH", none, catalog, [], 0, false, [], none, []⟩
  | .existingNotFound =>
      ⟨400, "EXISTING_FILE_NOT_FOUND", some sessionDir, catalog, [], 0, false, [], none, []⟩
  | .missingFingerprint =>
      ⟨400, "MISSING_FINGERPRINT", some sessionDir, catalog, [], 0, false, [], none, []⟩
  | .uploadPathMissing =>
      ⟨400, "UPLOAD_PATH_MISSING", some sessionDir, catalog, [], 0, false, [], none, []⟩
  | .cacheError _ =>
      ⟨500, "STREAM_START_FAILED", some sessionDir, catalog, [], 0, false, [], none,
       [⟨"START", some "admin", some "ERROR", none⟩]⟩

/-- The `POST /api/stream/start` handler. `active` is whether `currentFfmpeg`
is non-null when the request arrives; on conflict the handler answers 409
before touching anything. Otherwise it builds the session, sorts the files by
their caller-supplied index, writes the playlist in playlist mode, spawns
ffmpeg and appends a `START`/`OK` audit row. -/
def streamStart (active : Bool) (catalog : List CacheEntry) (fsFiles : List String)
    (req : StartRequest) (nowMs : Nat) : StartOutcome :=
  if active then
    ⟨409, "后台正在推流中，请先结束推流后再重试", none, catalog, [], 0, false, [], none, []⟩
  else
    let sessionDir := sessionDirName nowMs
    match startPairs catalog (sessionDir :: fsFiles) sessionDir req with
    | .error e => startErrOutcome catalog sessionDir e
    | .ok out =>
        let sessionFiles := (sortIns out.pairs).map Prod.snd
        ⟨200, "STREAM_STARTED", some sessionDir, out.catalog, out.renames, out.catalogWrites,
         true, sessionFiles,
         (if effectiveMode req = "playlist" then some (sessionFiles.map playlistLine) else none),
         [⟨"START", some "admin", some "OK", none⟩]⟩

/-- Audit row appended by the operator `POST /api/stream/stop` handler. -/
def stopAuditRec : AuditRec := ⟨"STOP", some "admin", some "OK", none⟩

/-- Audit row appended by the idle watchdog when it force-stops the stream. -/
def autoStopAuditRec : AuditRec := ⟨"AUTO_STOP", some "Server", none, some "NO_STREAM_ADMIN_30_MIN"⟩

/-- Effects of the `POST /api/stream/stop` handler: the answer body, whether a
termination signal was sent and the manual-stop flag set, the session
directories whose removal was attempted, and the audit rows appended. -/
structure StopOutcome where
  body : String
  killed : Bool
  manualFlagSet : Bool
  removalAttempts : List String
  audit : List AuditRec
deriving DecidableEq, Repr

/-- The `POST /api/stream/stop` handler: no-op when nothing is running,
otherwise clean the session directory, signal the process, set the
manual-stop flag and append a `STOP`/`OK` audit row. -/
def streamStop (active : Bool) (session : Option String) : StopOutcome :=
  if active = false then ⟨"当前没有推流", false, false, [], []⟩
  else
    let attempts := match session with | none => [] | some d => [d]
    ⟨"stopped", true, true, attempts, [stopAuditRec]⟩

/-- The module-level mutable slots the process supervision code uses, plus the
exit closure's `finished` flag. -/
structure StreamGlobals where
  currentFfmpeg : Bool
  currentStreamSession : Option String
  isStreamStoppingManually : Bool
  finishedFlag : Bool
deriving DecidableEq, Repr

/-- Effects of one run of the ffmpeg `exit` handler: the session directories
whose removal was attempted, the audit rows appended, and the `stream-status`
values pushed to the admin channel. -/
structure ExitEff where
  removalAttempts : List String
  audit : List AuditRec
  adminStatus : List String
deriving DecidableEq, Repr

/-- `cleanupSession(sessionDir)`: a no-op on a null argument, otherwise a
guarded forced removal that never throws. Returns the filesystem afterwards
and the directories whose removal was attempted. -/
def cleanupSession (fsDirs : List String) (sessionDir : Option String) :
    List String × List String :=
  match sessionDir with
  | none => (fsDirs, [])
  | some d => (fsDirs.filter (fun p => p ≠ d), [d])

/-- The `cleanup()` closure inside `startFfmpeg`: on first call it nulls both
current-process slots and marks itself finished. -/
def ffmpegCleanupVar (g : StreamGlobals) : StreamGlobals :=
  if g.finishedFlag then g
  else { g with finishedFlag := true, currentFfmpeg := false, currentStreamSession := none }

/-- The ffmpeg `exit` event handler: remember whether the stop was manual,
run `cleanup()`, call `cleanupSession(currentStreamSession)` on the value the
slot holds at that point, null the slots again, append the `EXIT` audit row
and notify the admin channel. -/
def onFfmpegExit (g : StreamGlobals) (fsDirs : List String)
    (code : Option Int) (signal : Option String) :
    StreamGlobals × List String × ExitEff :=
  let manual := g.isStreamStoppingManually
  let g1 := ffmpegCleanupVar g
  let cleaned := cleanupSession fsDirs g1.currentStreamSession
  let g2 := { g1 with currentFfmpeg := false, currentStreamSession := none,
                      isStreamStoppingManually := false }
  let exitRec : AuditRec :=
    ⟨"EXIT", none, some (if code = some 0 then "OK" else "ERROR"), none⟩
  let statuses :=
    if manual then ["stopped"]
    else [if code = some 0 then "stopped" else "error"]
  (g2, cleaned.1, ⟨cleaned.2, [exitRec], statuses⟩)

/-! ## Idle watchdog -/

/-- The admin-idle threshold (30 minutes in milliseconds). -/
def STREAM_ADMIN_IDLE_LIMIT_MS : Int := 30 * 60 * 1000

/-- The state the watchdog tick reads: whether a broadcast process is active,
how many admin-channel connections are attached, the last admin-activity
timestamp (null until an admin ever connected), and the manual-stop flag. -/
structure WatchSt where
  ffmpegActive : Bool
  adminCount : Nat
  lastStreamAdminActiveAt : Option Int
  isStreamStoppingManually : Bool
deriving DecidableEq, Repr

/-- Effects of one watchdog tick. -/
structure TickEff where
  signalSent : Bool
  audit : List AuditRec
deriving DecidableEq, Repr

/-- One tick of the idle-watchdog interval: bail out unless a stream is
active, no admin connection is attached, some admin was attached at least
once, and the idle time reached the threshold; then mark the stop as manual,
signal the process and append an `AUTO_STOP` audit row. -/
def watchdogTick (s : WatchSt) (nowMs : Int) : WatchSt × TickEff :=
  if s.ffmpegActive = false then (s, ⟨false, []⟩)
  else if 0 < s.adminCount then (s, ⟨false, []⟩)
  else
    match s.lastStreamAdminActiveAt with
    | none => (s, ⟨false, []⟩)
    | some t =>
        if nowMs - t < STREAM_ADMIN_IDLE_LIMIT_MS then (s, ⟨false, []⟩)
        else ({ s with isStreamStoppingManually := true }, ⟨true, [autoStopAuditRec]⟩)

/-! ## Admin token endpoints -/

/-- The `requireAdmin` middleware: pass exactly when the `x-admin-token`
header equals the shared secret. -/
def requireAdmin (adminToken : String) (headerToken : Option String) : Bool :=
  if headerToken = some adminToken then true else false

/-- Response of `GET /api/internal/admin-token`. -/
structure TokenResponse where
  status : Nat
  token : String
deriving DecidableEq, Repr

/-- The `GET /api/internal/admin-token` handler: unconditionally answer 200
with the shared secret, ignoring whatever header the caller presented. -/
def adminTokenHandler (adminToken : String) (headerToken : Option String) : TokenResponse :=
  ⟨200, adminToken⟩

/-! ## Concrete inputs used by the witnesses and counterexamples -/

/-- A paused room state with no hosts. -/
def idleState : RoomState := ⟨false, 0, false, 0, 0, 0⟩

/-- A playing room state with two connected hosts and the live view shown. -/
def twoHostState : RoomState := ⟨true, 10, true, 0, 0, 2⟩

/-- Roster entry of the first host. -/
def hostA : RosterEntry := ⟨"u1", "alice", "host"⟩

/-- Roster entry of the second host. -/
def hostB : RosterEntry := ⟨"u2", "bob", "host"⟩

/-- Roster entry of a viewer. -/
def viewerC : RosterEntry := ⟨"u3", "carol", "viewer"⟩

/-- Roster with two hosts and one viewer. -/
def roster2 : List (String × RosterEntry) := [("u1", hostA), ("u2", hostB), ("u3", viewerC)]

/-- Roster after the first host left. -/
def roster1 : List (String × RosterEntry) := [("u2", hostB), ("u3", viewerC)]

/-- A catalog with one entry for fingerprint `fp1`. -/
def catalogHit : List CacheEntry := [⟨"fp1", "/data/uploads/cached/fp1.mp4", "a.mp4"⟩]

/-- A disk on which the `fp1` cache file and one tmp upload exist. -/
def fsHit : List String := ["/data/uploads/cached/fp1.mp4", "/data/uploads/tmp/u1"]

/-- A disk holding two cached files, `a.mp4` and `b.mp4`. -/
def fsTwoCached : List String := ["/data/uploads/cached/a.mp4", "/data/uploads/cached/b.mp4"]

/-- A playlist-mode start request referencing cached B at index 1 before
cached A at index 0 — the indices are submitted out of request order. -/
def reqOutOfOrder : StartRequest :=
  ⟨"playlist", [], [], [],
   [⟨"/data/uploads/cached/b.mp4", 1⟩, ⟨"/data/uploads/cached/a.mp4", 0⟩], false⟩

/-- The session build the handler computes for `reqOutOfOrder` at t=5:
pairs in request order (B first), filesystem with both links created. -/
def buildOutOfOrder : StartBuild :=
  ⟨[(1, "/data/uploads/session-5/b.mp4"), (0, "/data/uploads/session-5/a.mp4")],
   [],
   ["/data/uploads/session-5/a.mp4", "/data/uploads/session-5/b.mp4",
    "/data/uploads/session-5", "/data/uploads/cached/a.mp4", "/data/uploads/cached/b.mp4"],
   [], 0⟩

/-- Globals of a normally running broadcast over session directory
`/data/uploads/session-1`. -/
def runningGlobals : StreamGlobals := ⟨true, some "/data/uploads/session-1", false, false⟩

/-- Watchdog state meeting all firing conditions (used by the C9 witness). -/
def watchIdle : WatchSt := ⟨true, 0, some 0, false⟩

/-! ## Helper lemmas about the index sort -/

theorem insIdx_perm (x : Int × String) (l : List (Int × String)) :
    (insIdx x l).Perm (x :: l) := by
  induction l with
  | nil => simp [insIdx]
  | cons y ys ih =>
      simp only [insIdx]
      by_cases h : x.1 ≤ y.1
      · rw [if_pos h]
      · rw [if_neg h]
        exact (ih.cons y).trans (List.Perm.swap x y ys)

theorem sortIns_perm (l : List (Int × String)) : (sortIns l).Perm l := by
  induction l with
  | nil => simp [sortIns]
  | cons x xs ih => exact (insIdx_perm x (sortIns xs)).trans (ih.cons x)

theorem insIdx_pairwise (x : Int × String) {l : List (Int × String)}
    (h : l.Pairwise fun a b => a.1 ≤ b.1) :
    (insIdx x l).Pairwise fun a b => a.1 ≤ b.1 := by
  induction l with
  | nil => simp [insIdx]
  | cons y ys ih =>
      rcases List.pairwise_cons.mp h with ⟨hy, hys⟩
      simp only [insIdx]
      by_cases hxy : x.1 ≤ y.1
      · rw [if_pos hxy]
        refine List.pairwise_cons.mpr ⟨?_, h⟩
        intro b hb
        rcases List.mem_cons.mp hb with rfl | hb
        · exact hxy
        · exact le_trans hxy (hy b hb)
      · rw [if_neg hxy]
        refine List.pairwise_cons.mpr ⟨?_, ih hys⟩
        intro b hb
        have hb2 : b = x ∨ b ∈ ys := by
          have := (insIdx_perm x ys).mem_iff.mp hb
          simpa using this
        rcases hb2 with rfl | hb2
        · exact le_of_not_le hxy
        · exact hy b hb2

theorem sortIns_pairwise (l : List (Int × String)) :
    (sortIns l).Pairwise fun a b => a.1 ≤ b.1 := by
  induction l with
  | nil => simp [sortIns]
  | cons x xs ih => exact insIdx_pairwise x ih

theorem pairwise_lt_of_le_ne {l : List (Int × String)}
    (hs : l.Pairwise fun a b => a.1 ≤ b.1)
    (hne : l.Pairwise fun a b => a.1 ≠ b.1) :
    l.Pairwise fun a b => a.1 < b.1 := by
  induction l with
  | nil => exact List.Pairwise.nil
  | cons x xs ih =>
      rcases List.pairwise_cons.mp hs with ⟨h1, h2⟩
      rcases List.pairwise_cons.mp hne with ⟨h3, h4⟩
      exact List.pairwise_cons.mpr
        ⟨fun b hb => lt_of_le_of_ne (h1 b hb) (h3 b hb), ih h2 h4⟩

instance : IsAntisymm (Int × String) fun a b => a.1 < b.1 :=
  ⟨fun _ _ h1 h2 => absurd h1 (lt_asymm h2)⟩

theorem sortIns_unique {l₁ l₂ : List (Int × String)} (hp : l₁.Perm l₂)
    (hn : (l₁.map Prod.fst).Nodup) : sortIns l₁ = sortIns l₂ := by
  have p1 := sortIns_perm l₁
  have p2 := sortIns_perm l₂
  have hperm : (sortIns l₁).Perm (sortIns l₂) := p1.trans (hp.trans p2.symm)
  have hn1 : ((sortIns l₁).map Prod.fst).Nodup := ((p1.map Prod.fst).nodup_iff).mpr hn
  have hn2' : (l₂.map Prod.fst).Nodup := ((hp.map Prod.fst).nodup_iff).mp hn
  have hn2 : ((sortIns l₂).map Prod.fst).Nodup := ((p2.map Prod.fst).nodup_iff).mpr hn2'
  have s1 := pairwise_lt_of_le_ne (sortIns_pairwise l₁) (List.pairwise_map.mp hn1)
  have s2 := pairwise_lt_of_le_ne (sortIns_pairwise l₂) (List.pairwise_map.mp hn2)
  exact List.eq_of_perm_of_sorted hperm s1 s2

/-! ## Claim theorems -/

/-- Claim C1: every `POST /api/stream/start` request arriving while a
broadcast process is active (the current-process slot is non-null) is answered
409 with no session directory created, no cache move or catalog write, and no
process spawned, regardless of the request payload. -/
theorem c1_start_conflict_409 (catalog : List CacheEntry) (fsFiles : List String)
    (req : StartRequest) (nowMs : Nat) :
    streamStart true catalog fsFiles req nowMs =
      ⟨409, "后台正在推流中，请先结束推流后再重试", none, catalog, [], 0, false, [], none, []⟩ :=
  rfl

/-- Claim C2 (code bug): evaluation of the ffmpeg `exit` handler at a running
session shows it attempts no removal at all — `cleanup()` nulls the
`currentStreamSession` slot before `cleanupSession` reads it, so the session
directory survives every exit branch (manual stop, watchdog stop, exit code
0, non-zero exit). -/
theorem c2_exit_handler_skips_cleanup :
    (onFfmpegExit runningGlobals ["/data/uploads/session-1"] (some 0) none).2.2.removalAttempts
      = [] ∧
    (onFfmpegExit runningGlobals ["/data/uploads/session-1"] (some 0) none).2.1
      = ["/data/uploads/session-1"] ∧
    (onFfmpegExit runningGlobals ["/data/uploads/session-1"] (some 1)
        (some "SIGTERM")).2.2.removalAttempts = [] ∧
    (onFfmpegExit { runningGlobals with isStreamStoppingManually := true }
        ["/data/uploads/session-1"] none (some "SIGTERM")).2.2.removalAttempts = [] :=
  ⟨rfl, rfl, rfl, rfl⟩

/-- Claim C3 (code bug): when a host disconnects from a room whose stored
`hostCount` is 2, the close handler performs no `setRoomState` write at all —
the decrement is never persisted — and when the second host then leaves (the
store still holding `hostCount = 2`) there is again no write and no
`toggle-live:false` broadcast, although all hosts are gone. -/
theorem c3_host_decrement_not_persisted :
    (handleClose "u1" "host" twoHostState roster2 true).storedState = none ∧
    (handleClose "u1" "host" twoHostState roster2 true).broadcasts =
      [Payload.roomUsers [hostB, viewerC]] ∧
    (handleClose "u2" "host" twoHostState roster1 true).storedState = none ∧
    (handleClose "u2" "host" twoHostState roster1 true).broadcasts =
      [Payload.roomUsers [viewerC]] :=
  ⟨rfl, rfl, rfl, rfl⟩

/-- Claim C5: a `getOrCreateCachedFile` call whose fingerprint has a catalog
row whose recorded file is present on disk returns the recorded path
unchanged, with no file move and no catalog write. -/
theorem c5_cache_hit (catalog : List CacheEntry) (fsFiles : List String)
    (fp up name : String) (e : CacheEntry)
    (hfp : fp ≠ "") (hup : up ≠ "")
    (hfind : findCache catalog fp = some e)
    (hdisk : fsFiles.contains e.path = true) :
    getOrCreateCachedFile catalog fsFiles fp up name =
      ⟨.ok e.path, catalog, fsFiles, [], 0⟩ := by
  have hmem : e.path ∈ fsFiles := by simpa using hdisk
  simp [getOrCreateCachedFile, hfp, hup, hfind, hdisk, hmem]

/-- Witness for C5 at a concrete catalog hit. -/
theorem c5_cache_hit_witness :
    getOrCreateCachedFile catalogHit fsHit "fp1" "/data/uploads/tmp/u1" "a.mp4" =
      ⟨.ok "/data/uploads/cached/fp1.mp4", catalogHit, fsHit, [], 0⟩ :=
  c5_cache_hit catalogHit fsHit "fp1" "/data/uploads/tmp/u1" "a.mp4"
    ⟨"fp1", "/data/uploads/cached/fp1.mp4", "a.mp4"⟩
    (by decide) (by decide) (by decide) (by decide)

/-- Counterexample to Claim C6 as stated: with a fingerprint supplied and the
path argument absent/empty, the operation fails with `MISSING_UPLOADED_PATH`,
not with `MISSING_PATH`. -/
theorem c6_missing_path_counterexample :
    (getOrCreateCachedFile [] [] "fp" "" "n").result = .error "MISSING_UPLOADED_PATH" ∧
    (getOrCreateCachedFile [] [] "fp" "" "n").result ≠ .error "MISSING_PATH" := by
  exact ⟨rfl, by decide⟩

/-- Claim C6 (amended): `getOrCreateCachedFile` fails with
`MISSING_FINGERPRINT` whenever the fingerprint argument is absent/empty, and
— the fingerprint being present — fails with `MISSING_UPLOADED_PATH` whenever
the supplied file path argument is absent/empty. -/
theorem c6_missing_input_errors (catalog : List CacheEntry) (fsFiles : List String)
    (fp up name : String) :
    (fp = "" →
      (getOrCreateCachedFile catalog fsFiles fp up name).result =
        .error "MISSING_FINGERPRINT") ∧
    (fp ≠ "" → up = "" →
      (getOrCreateCachedFile catalog fsFiles fp up name).result =
        .error "MISSING_UPLOADED_PATH") := by
  constructor
  · intro h
    simp [getOrCreateCachedFile, h]
  · intro h1 h2
    simp [getOrCreateCachedFile, h1, h2]

/-- Witness for C6 (amended) at concrete missing inputs. -/
theorem c6_missing_input_errors_witness :
    (getOrCreateCachedFile [] [] "" "p" "n").result = .error "MISSING_FINGERPRINT" ∧
    (getOrCreateCachedFile [] [] "f" "" "n").result = .error "MISSING_UPLOADED_PATH" :=
  ⟨(c6_missing_input_errors [] [] "" "p" "n").1 rfl,
   (c6_missing_input_errors [] [] "f" "" "n").2 (by decide) rfl⟩

/-- Claim C7: a `sync-request` is answered (to the sender only, with no store
write) by a `sync` whose `currentTime` is the stored `currentTime` plus the
wall-clock seconds elapsed since `anchorAt` when `playing`, and the stored
`currentTime` unchanged otherwise. -/
theorem c7_sync_reply_elapsed (role : String) (state : RoomState) (nowMs : ℚ) :
    (handleMessage role state nowMs .syncRequest).stored = none ∧
    (handleMessage role state nowMs .syncRequest).broadcasts = [] ∧
    (handleMessage role state nowMs .syncRequest).replies =
      [Payload.sync { state with currentTime :=
        if state.playing then state.currentTime + (nowMs - state.anchorAt) / 1000
        else state.currentTime }] := by
  refine ⟨rfl, rfl, ?_⟩
  cases h : state.playing <;> simp [handleMessage, getLiveCurrentTime, h]

/-- Claim C8: every control message (`play`, `pause`, `toggle-live`,
`refresh-live`) from a non-host connection produces no store write, no
broadcast and no reply of any kind — the handler's result is exactly the
no-op result, so two runs differing only in such a message agree on the room
state and on everything sent to the sender. -/
theorem c8_nonhost_control_silent (role : String) (state : RoomState) (nowMs : ℚ)
    (msg : ClientMsg) (hrole : role ≠ "host") (hctl : isControlMsg msg = true) :
    handleMessage role state nowMs msg = ⟨none, [], []⟩ := by
  cases msg <;> simp_all [isControlMsg, handleMessage]

/-- Witness for C8: a viewer's `play` is silently dropped. -/
theorem c8_nonhost_control_silent_witness :
    handleMessage "viewer" idleState 0 (.play 10) = ⟨none, [], []⟩ :=
  c8_nonhost_control_silent "viewer" idleState 0 (.play 10) (by decide) rfl

/-- Claim C9: the idle-watchdog tick, exactly when a broadcast is active, no
admin-channel connection is attached, an admin has connected at least once
and the idle time reached the 30-minute threshold, sets the manual-stop flag,
signals the process and appends the `AUTO_STOP` audit row (distinct from the
operator `STOP` row); on any other tick it changes nothing and emits
nothing. -/
theorem c9_idle_watchdog (s : WatchSt) (nowMs : Int) :
    ((s.ffmpegActive = true ∧ s.adminCount = 0 ∧
        ∃ t, s.lastStreamAdminActiveAt = some t ∧
          STREAM_ADMIN_IDLE_LIMIT_MS ≤ nowMs - t) →
      watchdogTick s nowMs =
        ({ s with isStreamStoppingManually := true }, ⟨true, [autoStopAuditRec]⟩) ∧
      autoStopAuditRec.action = "AUTO_STOP" ∧
      autoStopAuditRec.action ≠ stopAuditRec.action) ∧
    ((s.ffmpegActive = false ∨ s.adminCount ≠ 0 ∨ s.lastStreamAdminActiveAt = none ∨
        ∃ t, s.lastStreamAdminActiveAt = some t ∧
          nowMs - t < STREAM_ADMIN_IDLE_LIMIT_MS) →
      watchdogTick s nowMs = (s, ⟨false, []⟩)) := by
  constructor
  · rintro ⟨hact, hadm, t, ht, hge⟩
    refine ⟨?_, rfl, by decide⟩
    simp [watchdogTick, hact, hadm, ht, not_lt.mpr hge]
  · intro h
    rcases h with h | h | h | ⟨t, ht, hlt⟩
    · simp [watchdogTick, h]
    · by_cases hf : s.ffmpegActive = false
      · simp [watchdogTick, hf]
      · simp [watchdogTick, hf, Nat.pos_of_ne_zero h]
    · by_cases hf : s.ffmpegActive = false
      · simp [watchdogTick, hf]
      · by_cases ha : 0 < s.adminCount
        · simp [watchdogTick, hf, ha]
        · simp [watchdogTick, hf, ha, h]
    · by_cases hf : s.ffmpegActive = false
      · simp [watchdogTick, hf]
      · by_cases ha : 0 < s.adminCount
        · simp [watchdogTick, hf, ha]
        · simp [watchdogTick, hf, ha, ht, hlt]

/-- Witness for C9: with an active stream, no admins, and exactly 30 minutes
of idleness since the last admin activity, the watchdog fires. -/
theorem c9_idle_watchdog_witness :
    watchdogTick watchIdle 1800000 =
      (⟨true, 0, some 0, true⟩, ⟨true, [autoStopAuditRec]⟩) :=
  ((c9_idle_watchdog watchIdle 1800000).1 ⟨rfl, rfl, 0, rfl, by decide⟩).1

/-- Claim C10: `GET /api/internal/admin-token` answers 200 with the shared
admin secret for any caller (its response does not depend on the presented
header at all); that token is exactly what `requireAdmin` accepts, while a
caller presenting no token is rejected by `requireAdmin`. -/
theorem c10_admin_token_unauthenticated (tok : String) (hdr hdr2 : Option String) :
    (adminTokenHandler tok hdr).status = 200 ∧
    (adminTokenHandler tok hdr).token = tok ∧
    adminTokenHandler tok hdr = adminTokenHandler tok hdr2 ∧
    requireAdmin tok (some (adminTokenHandler tok hdr).token) = true ∧
    requireAdmin tok none = false := by
  refine ⟨rfl, rfl, rfl, ?_, ?_⟩
  · simp [requireAdmin, adminTokenHandler]
  · simp [requireAdmin]

/-- Claim C4: for every successful start request, the ordered session file
list is the index-sorted arrangement of the `(index, sessionPath)` pairs the
handler built — a permutation of the submitted entries whose indices are
ascending — the playlist manifest (in playlist mode) lists exactly those
files in that order, and whenever the caller-supplied indices are distinct
the sorted result is independent of the order in which the entries appeared
in the request. -/
theorem c4_session_files_sorted (catalog : List CacheEntry) (fsFiles : List String)
    (req : StartRequest) (nowMs : Nat) (out : StartBuild)
    (h : startPairs catalog (sessionDirName nowMs :: fsFiles) (sessionDirName nowMs) req =
      .ok out) :
    (streamStart false catalog fsFiles req nowMs).sessionFiles =
      (sortIns out.pairs).map Prod.snd ∧
    (sortIns out.pairs).Perm out.pairs ∧
    ((sortIns out.pairs).map Prod.fst).Pairwise (· ≤ ·) ∧
    (streamStart false catalog fsFiles req nowMs).playlistLines =
      (if effectiveMode req = "playlist"
       then some (((sortIns out.pairs).map Prod.snd).map playlistLine) else none) ∧
    (∀ pairs2 : List (Int × String), pairs2.Perm out.pairs →
      (out.pairs.map Prod.fst).Nodup → sortIns pairs2 = sortIns out.pairs) := by
  have hs : streamStart false catalog fsFiles req nowMs =
      ⟨200, "STREAM_STARTED", some (sessionDirName nowMs), out.catalog, out.renames,
       out.catalogWrites, true, (sortIns out.pairs).map Prod.snd,
       (if effectiveMode req = "playlist"
        then some (((sortIns out.pairs).map Prod.snd).map playlistLine) else none),
       [⟨"START", some "admin", some "OK", none⟩]⟩ := by
    simp [streamStart, h]
  refine ⟨?_, sortIns_perm out.pairs, ?_, ?_, ?_⟩
  · rw [hs]
  · exact List.pairwise_map.mpr (sortIns_pairwise out.pairs)
  · rw [hs]
  · intro pairs2 hperm hnodup
    exact sortIns_unique hperm (((hperm.map Prod.fst).nodup_iff).mpr hnodup)

/-- Witness for C4: cached file A (index 0) submitted after cached file B
(index 1) still ends up first in the session file list. -/
theorem c4_session_files_sorted_witness :
    (streamStart false [] fsTwoCached reqOutOfOrder 5).sessionFiles =
      ["/data/uploads/session-5/a.mp4", "/data/uploads/session-5/b.mp4"] := by
  have h := c4_session_files_sorted [] fsTwoCached reqOutOfOrder 5 buildOutOfOrder (by decide)
  rw [h.1]
  decide
